import Mathlib

/-!
Shallow embedding of the patient treatment-cycle timeline generator of
`src/Dataset/DataGen.py` (functions `generate_initial_gene_expression`,
`update_gene_expression`, `generate_treatment_outcome`,
`generate_cycle_drugs_for_stage`, `generate_treatment_cycles`), together
with proofs of the spec's testable properties.

Modelling conventions:
- Dates are integers (days); `timedelta(days = g)` is addition of `g`.
- Expression levels are rationals; Python's `round(x, 2)` becomes
  `round2 x = (round (x * 100) : ℤ) / 100` (the tie-breaking convention
  differs from Python's banker rounding only at exact half-cents, which
  none of the proved properties depend on).
- `random.uniform a b` is `a + (b - a) * t` for a stream-supplied unit
  draw `t` (this is literally CPython's formula, with `t = random()`);
  `random.randint a b` is `a + s % (b - a + 1)` for a stream-supplied
  seed `s`; `random.choice l` picks index `s % l.length`;
  `random.sample l k` repeatedly picks-and-removes by seed.
- The ambient global PRNG becomes an explicit `GenRand` record supplying
  one bundle of draws per cycle index, so the generator is a pure
  function of its inputs and the draw stream.
- Python dict literals become association lists looked up by `lookupD`,
  mirroring `dict.get(key, default)`.
-/

/-- Association-list lookup with a default, mirroring Python `d.get(k, dflt)`. -/
def lookupD {κ α : Type} [DecidableEq κ] : List (κ × α) → κ → α → α
  | [], _, dflt => dflt
  | (k, v) :: rest, key, dflt => if k = key then v else lookupD rest key dflt

/-- Python `round(x, 2)`: round to two decimal places. -/
def round2 (x : ℚ) : ℚ := (round (x * 100) : ℤ) / 100

/-- CPython `random.uniform a b = a + (b - a) * random()`, with the unit
draw `t` made explicit. -/
def uniform (a b t : ℚ) : ℚ := a + (b - a) * t

/-- Python `random.randint a b` (both ends inclusive), with the draw
supplied as a seed reduced modulo the width of the range. -/
def randint (a b seed : ℕ) : ℕ := a + seed % (b - a + 1)

/-- `GENE_LIST` from the source. -/
def GENE_LIST : List String := ["EGFR", "KRAS", "BRAF", "PIK3CA"]

/-- `DISEASE_GENE_BASE` from the source: per-disease baseline
`(min_value, max_value)` ranges for each gene. -/
def DISEASE_GENE_BASE : List (String × List (String × ℚ × ℚ)) :=
  [ ("Breast Cancer",
      [("EGFR", 5, 8), ("KRAS", 4, 7), ("BRAF", 5, 10), ("PIK3CA", 6, 11)]),
    ("Lung Cancer",
      [("EGFR", 10, 15), ("KRAS", 8, 14), ("BRAF", 5, 9), ("PIK3CA", 7, 10)]),
    ("Colorectal Cancer",
      [("EGFR", 4, 7), ("KRAS", 9, 14), ("BRAF", 7, 12), ("PIK3CA", 6, 9)]),
    ("Prostate Cancer",
      [("EGFR", 4, 6), ("KRAS", 5, 8), ("BRAF", 3, 6), ("PIK3CA", 5, 8)]),
    ("Leukemia",
      [("EGFR", 5, 8), ("KRAS", 5, 9), ("BRAF", 5, 9), ("PIK3CA", 4, 7)]),
    ("Lymphoma",
      [("EGFR", 6, 9), ("KRAS", 5, 8), ("BRAF", 6, 10), ("PIK3CA", 5, 9)]) ]

/-- `STAGE_MULTIPLIERS` from the source. -/
def STAGE_MULTIPLIERS : List (ℕ × ℚ) :=
  [(1, 1), (2, 11/10), (3, 6/5), (4, 13/10)]

/-- `DISEASE_GENE_BASE.get(disease, DISEASE_GENE_BASE["Breast Cancer"])`
from `generate_initial_gene_expression`. -/
def diseaseBases (disease : String) : List (String × ℚ × ℚ) :=
  lookupD DISEASE_GENE_BASE disease (lookupD DISEASE_GENE_BASE "Breast Cancer" [])

/-- `disease_bases.get(gene_name, (5, 10))` from the source. -/
def geneRange (disease g : String) : ℚ × ℚ :=
  lookupD (diseaseBases disease) g (5, 10)

/-- `STAGE_MULTIPLIERS.get(stage, 1.0)` from the source. -/
def stageMultiplier (stage : ℕ) : ℚ := lookupD STAGE_MULTIPLIERS stage 1

/-- The `outcomes` list inside `generate_treatment_outcome`. -/
def OUTCOMES : List String :=
  ["Complete Response", "Partial Response", "Stable Disease",
   "Progressive Disease", "Death", "Discontinued"]

/-- `generate_treatment_outcome`: `random.choice(outcomes)`, the choice
index supplied by the stream. -/
def generate_treatment_outcome (idx : ℕ) : String :=
  OUTCOMES.getD (idx % OUTCOMES.length) ""

/-- `DRUGS_BY_STAGE` from the source. -/
def DRUGS_BY_STAGE : List (ℕ × List String) :=
  [ (1, ["Doxorubicin", "Cyclophosphamide", "Paclitaxel"]),
    (2, ["Carboplatin", "Cisplatin", "Pembrolizumab"]),
    (3, ["Trastuzumab", "Erlotinib", "Bevacizumab"]),
    (4, ["Gemcitabine", "Vincristine", "Irinotecan"]) ]

/-- `THERAPY_SEGMENT_BY_STAGE` from the source (the source indexes the
dict directly; the default is unreachable because the generator only
produces stages 1..4, see the stage lemmas below). -/
def THERAPY_SEGMENT_BY_STAGE : List (ℕ × String) :=
  [ (1, "First-line Therapy"), (2, "Second-line Therapy"),
    (3, "Third-line Therapy"), (4, "Fourth-line Therapy") ]

/-- `random.sample l k` without replacement: pick an index by the next
seed, remove the element, recurse. -/
def sampleList : ℕ → List String → (ℕ → ℕ) → ℕ → List String
  | 0, _, _, _ => []
  | _ + 1, [], _, _ => []
  | k + 1, x :: xs, seeds, j =>
      (x :: xs).getD (seeds j % (x :: xs).length) "" ::
        sampleList k ((x :: xs).eraseIdx (seeds j % (x :: xs).length)) seeds (j + 1)

/-- `generate_cycle_drugs_for_stage` from the source: look up the
stage's catalog (default `[]`), draw `randint 1 (min 3 len)` drugs
without replacement. -/
def generate_cycle_drugs_for_stage (disease_stage : ℕ) (cnt : ℕ) (seeds : ℕ → ℕ) :
    List String :=
  let possible_drugs := lookupD DRUGS_BY_STAGE disease_stage []
  if possible_drugs.isEmpty then []
  else sampleList (randint 1 (min 3 possible_drugs.length) cnt) possible_drugs seeds 0

/-- `generate_initial_gene_expression` from the source: for each gene of
`GENE_LIST`, `round(uniform(lo, hi) * stage_multiplier, 2)`. -/
def generate_initial_gene_expression (disease : String) (stage : ℕ) (u : ℕ → ℚ) :
    List (String × ℚ) :=
  GENE_LIST.enum.map fun ig =>
    (ig.2, round2 (uniform (geneRange disease ig.2).1 (geneRange disease ig.2).2 (u ig.1)
      * stageMultiplier stage))

/-- `update_gene_expression` from the source: for each gene,
`round((old + uniform(-variation, variation)) * stage_multiplier, 2)`.
The `disease` parameter is accepted and ignored, exactly as in the source. -/
def update_gene_expression (old_expression : List (String × ℚ)) (disease : String)
    (stage : ℕ) (variation : ℚ) (u : ℕ → ℚ) : List (String × ℚ) :=
  old_expression.enum.map fun iv =>
    (iv.2.1, round2 ((iv.2.2 + uniform (-variation) variation (u iv.1)) * stageMultiplier stage))

/-- The random draws one loop iteration of `generate_treatment_cycles`
consumes: the outcome choice, the drug-count draw, the drug-sample
seeds, and the per-gene drift unit draws. -/
structure CycleRand where
  outcomeIdx : ℕ
  drugCount : ℕ
  drugSeeds : ℕ → ℕ
  driftUnit : ℕ → ℚ

/-- The whole draw stream of one `generate_treatment_cycles` call: the
`randint(1, 2)` seed for the starting stage, the unit draws of the
initial snapshot, and one `CycleRand` per 0-based cycle index. -/
structure GenRand where
  stageSeed : ℕ
  initUnit : ℕ → ℚ
  cyc : ℕ → CycleRand

/-- The outcome sampled at 0-based cycle index `k`. -/
def outcomeOf (r : GenRand) (k : ℕ) : String :=
  generate_treatment_outcome (r.cyc k).outcomeIdx

/-- One emitted cycle record (`cycle_info` in the source). -/
structure CycleInfo where
  cycle_number : ℕ
  cycle_date : ℤ
  disease_stage : ℕ
  therapy_segment : String
  drugs_used : List String
  gene_expression : List (String × ℚ)
  treatment_outcome : String
deriving DecidableEq

/-- Default record used only as a `getD` fallback in statements. -/
def defaultCycle : CycleInfo := ⟨0, 0, 0, "", [], [], ""⟩

/-- The `cycle_info` dict built at 0-based index `k` (so `cycle_number`
is `k + 1`). -/
def mkCycle (r : GenRand) (k : ℕ) (date : ℤ) (stage : ℕ) (expr : List (String × ℚ)) :
    CycleInfo :=
  ⟨k + 1, date, stage, lookupD THERAPY_SEGMENT_BY_STAGE stage "",
    generate_cycle_drugs_for_stage stage (r.cyc k).drugCount (r.cyc k).drugSeeds,
    expr, outcomeOf r k⟩

/-- The loop guard `if date_of_death and start_date >= date_of_death`
(a datetime is always truthy, so the test is exactly "a death date is
present and already reached"). -/
def dodReached (dod : Option ℤ) (date : ℤ) : Bool :=
  match dod with
  | some d => decide (d ≤ date)
  | none => false

/-- The `for cycle_num in range(1, num_cycles + 1)` loop of
`generate_treatment_cycles`, as structural recursion on the remaining
iteration count.  `k` is the 0-based cycle index, and the three exits
mirror the source: the death-date guard before emitting, the `Death`
break (which sets the death date to the already-advanced date), and the
`Discontinued` break (which leaves the death date alone). -/
def genCyclesGo (disease : String) (gap : ℤ) (r : GenRand) :
    ℕ → ℕ → ℤ → ℕ → List (String × ℚ) → Option ℤ → List CycleInfo × Option ℤ
  | 0, _, _, _, _, dod => ([], dod)
  | rem + 1, k, date, stage, expr, dod =>
    if dodReached dod date then ([], dod)
    else if outcomeOf r k = "Death" then
      ([mkCycle r k date stage expr], some (date + gap))
    else if outcomeOf r k = "Discontinued" then
      ([mkCycle r k date stage expr], dod)
    else
      let rest := genCyclesGo disease gap r rem (k + 1) (date + gap)
        (if stage < 4 then stage + 1 else stage)
        (update_gene_expression expr disease (min (stage + 1) 4) 2 (r.cyc k).driftUnit) dod
      (mkCycle r k date stage expr :: rest.1, rest.2)

/-- `generate_treatment_cycles` from the source: start the stage at
`randint(1, 2)`, build the initial snapshot, run the loop. -/
def generate_treatment_cycles (disease : String) (start_date : ℤ) (num_cycles : ℕ)
    (cycle_gap_days : ℤ) (date_of_death : Option ℤ) (r : GenRand) :
    List CycleInfo × Option ℤ :=
  let disease_stage := randint 1 2 r.stageSeed
  let gene_expression := generate_initial_gene_expression disease disease_stage r.initUnit
  genCyclesGo disease cycle_gap_days r num_cycles 0 start_date disease_stage
    gene_expression date_of_death

/-- An outcome that terminates the timeline early. -/
def isTerminalOutcome (o : String) : Bool :=
  decide (o = "Death") || decide (o = "Discontinued")

/-- The arithmetic date sequence `d, d + gap, d + 2 gap, ...` traced by
the emitted cycles. -/
def dateList (gap : ℤ) : ℤ → ℕ → List ℤ
  | _, 0 => []
  | d, n + 1 => d :: dateList gap (d + gap) n

/-- The stage sequence `s, s + 1, ...` saturating at 4 traced by the
emitted cycles. -/
def stageList : ℕ → ℕ → List ℕ
  | _, 0 => []
  | s, n + 1 => s :: stageList (if s < 4 then s + 1 else s) n

/-- All draws zero: starting stage 1, every initial value at the low end
of its range, outcome "Complete Response" each cycle, drift always -2. -/
def rZero : GenRand := ⟨0, fun _ => 0, fun _ => ⟨0, 0, fun _ => 0, fun _ => 0⟩⟩

/-- Like `rZero` but every cycle's outcome draw is index 4, "Death". -/
def rDeathAt0 : GenRand := ⟨0, fun _ => 0, fun _ => ⟨4, 0, fun _ => 0, fun _ => 0⟩⟩

/-- Like `rZero` but every cycle's outcome draw is index 5, "Discontinued". -/
def rDiscAt0 : GenRand := ⟨0, fun _ => 0, fun _ => ⟨5, 0, fun _ => 0, fun _ => 0⟩⟩

/-!  Generic helper lemmas.  -/

lemma lookupD_pred {κ α : Type} [DecidableEq κ] (P : α → Prop) :
    ∀ (l : List (κ × α)) (key : κ) (dflt : α),
      (∀ q ∈ l, P q.2) → P dflt → P (lookupD l key dflt)
  | [], _, _, _, hd => hd
  | (k, v) :: rest, key, dflt, hl, hd => by
      by_cases h : k = key
      · simpa [lookupD, h] using hl (k, v) (by simp)
      · simpa [lookupD, h] using
          lookupD_pred P rest key dflt (fun q hq => hl q (by simp [hq])) hd

lemma round2_bounds (x : ℚ) : x - 1/200 ≤ round2 x ∧ round2 x ≤ x + 1/200 := by
  have h := abs_sub_round (x * 100)
  rw [abs_le] at h
  unfold round2
  constructor <;> [linarith [h.1]; linarith [h.2]]

lemma uniform_bounds {a b t : ℚ} (hab : a ≤ b) (h0 : 0 ≤ t) (h1 : t ≤ 1) :
    a ≤ uniform a b t ∧ uniform a b t ≤ b := by
  unfold uniform
  constructor
  · nlinarith
  · nlinarith

lemma getD_map_lt {α β : Type} (f : α → β) :
    ∀ (l : List α) (i : ℕ) (y : β) (x : α), i < l.length →
      (l.map f).getD i y = f (l.getD i x)
  | [], i, _, _, h => absurd h (by simp)
  | a :: l, 0, y, x, _ => rfl
  | a :: l, i + 1, y, x, h => by
      simpa using getD_map_lt f l i y x (by simpa using h)

/-!  Facts about the lookup tables.  -/

lemma diseaseBases_good (d : String) :
    ∀ q ∈ diseaseBases d, 3 ≤ q.2.1 ∧ q.2.1 ≤ q.2.2 := by
  unfold diseaseBases
  refine lookupD_pred (fun table => ∀ q ∈ table, 3 ≤ q.2.1 ∧ q.2.1 ≤ q.2.2)
    DISEASE_GENE_BASE d (lookupD DISEASE_GENE_BASE "Breast Cancer" []) ?_ ?_
  · intro q hq
    fin_cases hq <;> intro p hp <;> fin_cases hp <;> norm_num
  · intro p hp
    simp only [DISEASE_GENE_BASE, lookupD, if_pos] at hp
    fin_cases hp <;> norm_num

lemma geneRange_good (d g : String) :
    3 ≤ (geneRange d g).1 ∧ (geneRange d g).1 ≤ (geneRange d g).2 := by
  unfold geneRange
  exact lookupD_pred (fun p => 3 ≤ p.1 ∧ p.1 ≤ p.2) (diseaseBases d) g (5, 10)
    (diseaseBases_good d) (by norm_num)

lemma stageMultiplier_good (s : ℕ) : 1 ≤ stageMultiplier s := by
  unfold stageMultiplier
  refine lookupD_pred (fun x => 1 ≤ x) STAGE_MULTIPLIERS s 1 ?_ (by norm_num)
  intro q hq
  fin_cases hq <;> norm_num

/-!  The shapes of the emitted cycle-number, date and stage sequences.  -/

lemma dateList_getD (gap : ℤ) :
    ∀ (n i : ℕ) (d y : ℤ), i < n → (dateList gap d n).getD i y = d + i * gap
  | 0, i, _, _, h => absurd h (by omega)
  | n + 1, 0, d, y, _ => by simp [dateList]
  | n + 1, i + 1, d, y, h => by
      have hrec := dateList_getD gap n i (d + gap) y (by omega)
      simp only [dateList, List.getD_cons_succ, hrec]
      push_cast
      ring

lemma stageList_getD :
    ∀ (n i s y : ℕ), s ≤ 4 → i < n → (stageList s n).getD i y = min (s + i) 4
  | 0, i, _, _, _, h => absurd h (by omega)
  | n + 1, 0, s, y, hs, _ => by simp [stageList]; omega
  | n + 1, i + 1, s, y, hs, h => by
      have hs2 : (if s < 4 then s + 1 else s) ≤ 4 := by split <;> omega
      have hrec := stageList_getD n i (if s < 4 then s + 1 else s) y hs2 (by omega)
      simp only [stageList, List.getD_cons_succ, hrec]
      split <;> omega

lemma genCyclesGo_map_number (d : String) (gap : ℤ) (r : GenRand) (dod : Option ℤ) :
    ∀ (rem k : ℕ) (date : ℤ) (stage : ℕ) (expr : List (String × ℚ)),
      ((genCyclesGo d gap r rem k date stage expr dod).1.map fun c => c.cycle_number)
        = List.range' (k + 1) (genCyclesGo d gap r rem k date stage expr dod).1.length := by
  intro rem
  induction rem with
  | zero => intro k date stage expr; simp [genCyclesGo]
  | succ n ih =>
      intro k date stage expr
      simp only [genCyclesGo]
      by_cases h1 : dodReached dod date
      · simp [h1]
      · by_cases h2 : outcomeOf r k = "Death"
        · simp [h1, h2, mkCycle, List.range']
        · by_cases h3 : outcomeOf r k = "Discontinued"
          · simp [h1, h2, h3, mkCycle, List.range']
          · simp [h1, h2, h3, mkCycle, List.range', ih]

lemma genCyclesGo_map_date (d : String) (gap : ℤ) (r : GenRand) (dod : Option ℤ) :
    ∀ (rem k : ℕ) (date : ℤ) (stage : ℕ) (expr : List (String × ℚ)),
      ((genCyclesGo d gap r rem k date stage expr dod).1.map fun c => c.cycle_date)
        = dateList gap date (genCyclesGo d gap r rem k date stage expr dod).1.length := by
  intro rem
  induction rem with
  | zero => intro k date stage expr; simp [genCyclesGo, dateList]
  | succ n ih =>
      intro k date stage expr
      simp only [genCyclesGo]
      by_cases h1 : dodReached dod date
      · simp [h1, dateList]
      · by_cases h2 : outcomeOf r k = "Death"
        · simp [h1, h2, mkCycle, dateList]
        · by_cases h3 : outcomeOf r k = "Discontinued"
          · simp [h1, h2, h3, mkCycle, dateList]
          · simp [h1, h2, h3, mkCycle, dateList, ih]

lemma genCyclesGo_map_stage (d : String) (gap : ℤ) (r : GenRand) (dod : Option ℤ) :
    ∀ (rem k : ℕ) (date : ℤ) (stage : ℕ) (expr : List (String × ℚ)),
      ((genCyclesGo d gap r rem k date stage expr dod).1.map fun c => c.disease_stage)
        = stageList stage (genCyclesGo d gap r rem k date stage expr dod).1.length := by
  intro rem
  induction rem with
  | zero => intro k date stage expr; simp [genCyclesGo, stageList]
  | succ n ih =>
      intro k date stage expr
      simp only [genCyclesGo]
      by_cases h1 : dodReached dod date
      · simp [h1, stageList]
      · by_cases h2 : outcomeOf r k = "Death"
        · simp [h1, h2, mkCycle, stageList]
        · by_cases h3 : outcomeOf r k = "Discontinued"
          · simp [h1, h2, h3, mkCycle, stageList]
          · simp [h1, h2, h3, mkCycle, stageList, ih]

/-!  Bounds on the initial snapshot.  -/

lemma initial_expr_bounds (d : String) (s : ℕ) (u : ℕ → ℚ)
    (hu : ∀ i, 0 ≤ u i ∧ u i ≤ 1) :
    ∀ p ∈ generate_initial_gene_expression d s u,
      (geneRange d p.1).1 * stageMultiplier s - 1/200 ≤ p.2 ∧
        p.2 ≤ (geneRange d p.1).2 * stageMultiplier s + 1/200 := by
  intro p hp
  simp only [generate_initial_gene_expression, List.mem_map] at hp
  obtain ⟨ig, hig, rfl⟩ := hp
  have hr := geneRange_good d ig.2
  have hm := stageMultiplier_good s
  have hm0 : (0 : ℚ) ≤ stageMultiplier s := le_trans zero_le_one hm
  have hui := hu ig.1
  have huni := uniform_bounds hr.2 hui.1 hui.2
  have hrd := round2_bounds
    (uniform (geneRange d ig.2).1 (geneRange d ig.2).2 (u ig.1) * stageMultiplier s)
  have h1 : (geneRange d ig.2).1 * stageMultiplier s ≤
      uniform (geneRange d ig.2).1 (geneRange d ig.2).2 (u ig.1) * stageMultiplier s :=
    mul_le_mul_of_nonneg_right huni.1 hm0
  have h2 : uniform (geneRange d ig.2).1 (geneRange d ig.2).2 (u ig.1) * stageMultiplier s ≤
      (geneRange d ig.2).2 * stageMultiplier s :=
    mul_le_mul_of_nonneg_right huni.2 hm0
  dsimp only
  constructor
  · linarith [hrd.1]
  · linarith [hrd.2]

/-!  Structural facts about the generator loop.  -/

lemma genCyclesGo_head_expr (d : String) (gap : ℤ) (r : GenRand) (dod : Option ℤ)
    (rem k : ℕ) (date : ℤ) (stage : ℕ) (expr : List (String × ℚ)) :
    ((genCyclesGo d gap r rem k date stage expr dod).1.getD 0 defaultCycle).gene_expression
      = expr ∨ (genCyclesGo d gap r rem k date stage expr dod).1 = [] := by
  cases rem with
  | zero => right; rfl
  | succ n =>
      simp only [genCyclesGo]
      by_cases h1 : dodReached dod date = true
      · right; simp [h1]
      · by_cases h2 : outcomeOf r k = "Death"
        · left; simp [h1, h2, mkCycle]
        · by_cases h3 : outcomeOf r k = "Discontinued"
          · left; simp [h1, h2, h3, mkCycle]
          · left; simp [h1, h2, h3, mkCycle]

lemma genCyclesGo_death (d : String) (gap : ℤ) (r : GenRand) (dod : Option ℤ) :
    ∀ (rem k : ℕ) (date : ℤ) (stage : ℕ) (expr : List (String × ℚ)) (i : ℕ),
      i < (genCyclesGo d gap r rem k date stage expr dod).1.length →
      ((genCyclesGo d gap r rem k date stage expr dod).1.getD i defaultCycle).treatment_outcome
        = "Death" →
      i = (genCyclesGo d gap r rem k date stage expr dod).1.length - 1 ∧
        (genCyclesGo d gap r rem k date stage expr dod).2 =
          some (((genCyclesGo d gap r rem k date stage expr dod).1.getD i
            defaultCycle).cycle_date + gap) := by
  intro rem
  induction rem with
  | zero => intro k date stage expr i hi; simp [genCyclesGo] at hi
  | succ n ih =>
      intro k date stage expr i hi hout
      simp only [genCyclesGo] at hi hout ⊢
      by_cases h1 : dodReached dod date = true
      · rw [if_pos h1] at hi; simp at hi
      · rw [if_neg h1] at hi hout ⊢
        by_cases h2 : outcomeOf r k = "Death"
        · rw [if_pos h2] at hi hout ⊢
          have hi0 : i = 0 := by simpa using hi
          subst hi0
          simp [mkCycle]
        · rw [if_neg h2] at hi hout ⊢
          by_cases h3 : outcomeOf r k = "Discontinued"
          · rw [if_pos h3] at hi hout ⊢
            have hi0 : i = 0 := by simpa using hi
            subst hi0
            simp [mkCycle, h3] at hout
          · rw [if_neg h3] at hi hout ⊢
            cases i with
            | zero =>
                simp [mkCycle] at hout
                exact absurd hout h2
            | succ j =>
                simp only [List.length_cons, List.getD_cons_succ] at hi hout ⊢
                have hj : j < (genCyclesGo d gap r n (k + 1) (date + gap)
                    (if stage < 4 then stage + 1 else stage)
                    (update_gene_expression expr d (min (stage + 1) 4) 2
                      (r.cyc k).driftUnit) dod).1.length := by omega
                obtain ⟨hlast, hsnd⟩ := ih (k + 1) (date + gap)
                  (if stage < 4 then stage + 1 else stage)
                  (update_gene_expression expr d (min (stage + 1) 4) 2
                    (r.cyc k).driftUnit) j hj hout
                exact ⟨by omega, hsnd⟩

lemma genCyclesGo_disc (d : String) (gap : ℤ) (r : GenRand) (dod : Option ℤ) :
    ∀ (rem k : ℕ) (date : ℤ) (stage : ℕ) (expr : List (String × ℚ)) (i : ℕ),
      i < (genCyclesGo d gap r rem k date stage expr dod).1.length →
      ((genCyclesGo d gap r rem k date stage expr dod).1.getD i defaultCycle).treatment_outcome
        = "Discontinued" →
      i = (genCyclesGo d gap r rem k date stage expr dod).1.length - 1 ∧
        (genCyclesGo d gap r rem k date stage expr dod).2 = dod := by
  intro rem
  induction rem with
  | zero => intro k date stage expr i hi; simp [genCyclesGo] at hi
  | succ n ih =>
      intro k date stage expr i hi hout
      simp only [genCyclesGo] at hi hout ⊢
      by_cases h1 : dodReached dod date = true
      · rw [if_pos h1] at hi; simp at hi
      · rw [if_neg h1] at hi hout ⊢
        by_cases h2 : outcomeOf r k = "Death"
        · rw [if_pos h2] at hi hout ⊢
          have hi0 : i = 0 := by simpa using hi
          subst hi0
          simp [mkCycle, h2] at hout
        · rw [if_neg h2] at hi hout ⊢
          by_cases h3 : outcomeOf r k = "Discontinued"
          · rw [if_pos h3] at hi hout ⊢
            have hi0 : i = 0 := by simpa using hi
            subst hi0
            simp [mkCycle]
          · rw [if_neg h3] at hi hout ⊢
            cases i with
            | zero =>
                simp [mkCycle] at hout
                exact absurd hout h3
            | succ j =>
                simp only [List.length_cons, List.getD_cons_succ] at hi hout ⊢
                have hj : j < (genCyclesGo d gap r n (k + 1) (date + gap)
                    (if stage < 4 then stage + 1 else stage)
                    (update_gene_expression expr d (min (stage + 1) 4) 2
                      (r.cyc k).driftUnit) dod).1.length := by omega
                obtain ⟨hlast, hsnd⟩ := ih (k + 1) (date + gap)
                  (if stage < 4 then stage + 1 else stage)
                  (update_gene_expression expr d (min (stage + 1) 4) 2
                    (r.cyc k).driftUnit) j hj hout
                exact ⟨by omega, hsnd⟩

lemma isTerminalOutcome_false {o : String} (h1 : o ≠ "Death") (h2 : o ≠ "Discontinued") :
    isTerminalOutcome o = false := by
  simp [isTerminalOutcome, h1, h2]

lemma genCyclesGo_len (d : String) (gap : ℤ) (r : GenRand) (dod : Option ℤ) :
    ∀ (rem k : ℕ) (date : ℤ) (stage : ℕ) (expr : List (String × ℚ)),
      (genCyclesGo d gap r rem k date stage expr dod).1.length ≤ rem ∧
      ((genCyclesGo d gap r rem k date stage expr dod).1.length = rem ↔
        (∀ i, i + 1 < rem → isTerminalOutcome (outcomeOf r (k + i)) = false) ∧
        (∀ i : ℕ, i < rem → ∀ dd, dod = some dd → date + (i : ℤ) * gap < dd)) := by
  intro rem
  induction rem with
  | zero =>
      intro k date stage expr
      refine ⟨by simp [genCyclesGo], ?_⟩
      simp [genCyclesGo]
  | succ n ih =>
      intro k date stage expr
      simp only [genCyclesGo]
      by_cases h1 : dodReached dod date = true
      · obtain ⟨dd, hdd, hle⟩ : ∃ dd, dod = some dd ∧ dd ≤ date := by
          cases dod with
          | none => simp [dodReached] at h1
          | some x => exact ⟨x, rfl, by simpa [dodReached] using h1⟩
        rw [if_pos h1]
        refine ⟨by simp, ?_⟩
        simp only [List.length_nil]
        constructor
        · intro h; omega
        · rintro ⟨-, hB⟩
          have hcontra := hB 0 (by omega) dd hdd
          simp at hcontra
          omega
      · rw [if_neg h1]
        have hdlt : ∀ dd, dod = some dd → date < dd := by
          intro dd hdd
          cases dod with
          | none => simp at hdd
          | some x =>
              have hx : ¬ (x ≤ date) := by simpa [dodReached] using h1
              obtain rfl : x = dd := by injection hdd
              omega
        by_cases h2 : outcomeOf r k = "Death"
        · rw [if_pos h2]
          refine ⟨by simp, ?_⟩
          simp only [List.length_singleton]
          constructor
          · intro hlen
            have hn : n = 0 := by omega
            subst hn
            refine ⟨by intro i hi; omega, ?_⟩
            intro i hi dd hdd
            have hi0 : i = 0 := by omega
            subst hi0
            have := hdlt dd hdd
            simpa using this
          · rintro ⟨hA, -⟩
            by_contra hne
            have := hA 0 (by omega)
            rw [Nat.add_zero, h2] at this
            simp [isTerminalOutcome] at this
        · rw [if_neg h2]
          by_cases h3 : outcomeOf r k = "Discontinued"
          · rw [if_pos h3]
            refine ⟨by simp, ?_⟩
            simp only [List.length_singleton]
            constructor
            · intro hlen
              have hn : n = 0 := by omega
              subst hn
              refine ⟨by intro i hi; omega, ?_⟩
              intro i hi dd hdd
              have hi0 : i = 0 := by omega
              subst hi0
              have := hdlt dd hdd
              simpa using this
            · rintro ⟨hA, -⟩
              by_contra hne
              have := hA 0 (by omega)
              rw [Nat.add_zero, h3] at this
              simp [isTerminalOutcome] at this
          · rw [if_neg h3]
            obtain ⟨hlen, hiff⟩ := ih (k + 1) (date + gap)
              (if stage < 4 then stage + 1 else stage)
              (update_gene_expression expr d (min (stage + 1) 4) 2 (r.cyc k).driftUnit)
            refine ⟨by simp only [List.length_cons]; omega, ?_⟩
            simp only [List.length_cons]
            constructor
            · intro hlen1
              obtain ⟨hA1, hB1⟩ := hiff.mp (by omega)
              constructor
              · intro i hi
                cases i with
                | zero =>
                    simpa using isTerminalOutcome_false h2 h3
                | succ j =>
                    have hh := hA1 j (by omega)
                    have heq : k + (j + 1) = k + 1 + j := by omega
                    rw [heq]
                    exact hh
              · intro i hi dd hdd
                cases i with
                | zero =>
                    have := hdlt dd hdd
                    simpa using this
                | succ j =>
                    have hh := hB1 j (by omega) dd hdd
                    push_cast at hh ⊢
                    linarith [hh]
            · rintro ⟨hA, hB⟩
              have hrec : (genCyclesGo d gap r n (k + 1) (date + gap)
                  (if stage < 4 then stage + 1 else stage)
                  (update_gene_expression expr d (min (stage + 1) 4) 2
                    (r.cyc k).driftUnit) dod).1.length = n := by
                apply hiff.mpr
                constructor
                · intro j hj
                  have hh := hA (j + 1) (by omega)
                  have heq : k + (j + 1) = k + 1 + j := by omega
                  rw [heq] at hh
                  exact hh
                · intro j hj dd hdd
                  have hh := hB (j + 1) (by omega) dd hdd
                  push_cast at hh ⊢
                  linarith [hh]
              omega

/-!  The generator ignores the disease string everywhere except the
initial snapshot, and an unknown disease falls back to the
"Breast Cancer" baselines.  -/

lemma lookupD_eq_default {κ α : Type} [DecidableEq κ] :
    ∀ (l : List (κ × α)) (key : κ) (dflt : α), (∀ q ∈ l, q.1 ≠ key) →
      lookupD l key dflt = dflt
  | [], _, _, _ => rfl
  | (k, v) :: rest, key, dflt, h => by
      have hk : k ≠ key := h (k, v) (by simp)
      simp only [lookupD, if_neg hk]
      exact lookupD_eq_default rest key dflt (fun q hq => h q (by simp [hq]))

lemma diseaseBases_unknown (d : String) (hd : ∀ q ∈ DISEASE_GENE_BASE, q.1 ≠ d) :
    diseaseBases d = diseaseBases "Breast Cancer" := by
  unfold diseaseBases
  rw [lookupD_eq_default DISEASE_GENE_BASE d _ hd]
  rfl

lemma initial_expr_unknown (d : String) (hd : ∀ q ∈ DISEASE_GENE_BASE, q.1 ≠ d)
    (s : ℕ) (u : ℕ → ℚ) :
    generate_initial_gene_expression d s u
      = generate_initial_gene_expression "Breast Cancer" s u := by
  have hg : ∀ g, geneRange d g = geneRange "Breast Cancer" g := by
    intro g
    unfold geneRange
    rw [diseaseBases_unknown d hd]
  simp only [generate_initial_gene_expression, hg]

lemma genCyclesGo_disease (d1 d2 : String) (gap : ℤ) (r : GenRand) (dod : Option ℤ) :
    ∀ (rem k : ℕ) (date : ℤ) (stage : ℕ) (expr : List (String × ℚ)),
      genCyclesGo d1 gap r rem k date stage expr dod
        = genCyclesGo d2 gap r rem k date stage expr dod := by
  intro rem
  induction rem with
  | zero => intro k date stage expr; rfl
  | succ n ih =>
      intro k date stage expr
      simp only [genCyclesGo]
      by_cases h1 : dodReached dod date = true
      · rw [if_pos h1, if_pos h1]
      · rw [if_neg h1, if_neg h1]
        by_cases h2 : outcomeOf r k = "Death"
        · rw [if_pos h2, if_pos h2]
        · rw [if_neg h2, if_neg h2]
          by_cases h3 : outcomeOf r k = "Discontinued"
          · rw [if_pos h3, if_pos h3]
          · rw [if_neg h3, if_neg h3]
            have hupd : update_gene_expression expr d1 (min (stage + 1) 4) 2
                (r.cyc k).driftUnit = update_gene_expression expr d2 (min (stage + 1) 4) 2
                (r.cyc k).driftUnit := rfl
            rw [hupd, ih]

/-!  Evaluation helpers for concrete runs (Rat arithmetic does not
kernel-reduce, so concrete computations go through `norm_num`).  -/

lemma round2_eval (x : ℚ) (n : ℤ) (h : x * 100 = (n : ℚ)) : round2 x = (n : ℚ) / 100 := by
  unfold round2
  rw [h, round_intCast]

lemma mem_getD {α : Type} (d : α) : ∀ (l : List α) (i : ℕ), i < l.length → l.getD i d ∈ l
  | [], _, h => absurd h (by simp)
  | a :: l, 0, _ => by simp
  | a :: l, i + 1, h => by
      simp only [List.getD_cons_succ]
      exact List.mem_cons_of_mem a (mem_getD d l i (by simpa using h))

lemma round2_id_4 : round2 4 = 4 := by rw [round2_eval 4 400 (by norm_num)]; norm_num
lemma round2_id_5 : round2 5 = 5 := by rw [round2_eval 5 500 (by norm_num)]; norm_num
lemma round2_id_3 : round2 3 = 3 := by rw [round2_eval 3 300 (by norm_num)]; norm_num
lemma round2_id_11_5 : round2 (11/5) = 11/5 := by
  rw [round2_eval (11/5) 220 (by norm_num)]; norm_num
lemma round2_id_33_10 : round2 (33/10) = 33/10 := by
  rw [round2_eval (33/10) 330 (by norm_num)]; norm_num
lemma round2_id_11_10 : round2 (11/10) = 11/10 := by
  rw [round2_eval (11/10) 110 (by norm_num)]; norm_num
lemma round2_id_6_25 : round2 (6/25) = 6/25 := by
  rw [round2_eval (6/25) 24 (by norm_num)]; norm_num
lemma round2_id_39_25 : round2 (39/25) = 39/25 := by
  rw [round2_eval (39/25) 156 (by norm_num)]; norm_num
lemma round2_id_neg_27_25 : round2 (-(27/25)) = -(27/25) := by
  rw [round2_eval (-(27/25)) (-108) (by norm_num)]; norm_num

/-- C1 counterexample: the claim that every gene's expression level in
every emitted cycle's snapshot is non-negative is false on the code.
With starting stage 1, all-low initial draws and drift -2 each cycle,
Prostate Cancer's BRAF value runs 3, then 1.1, then -1.08, and the
snapshot holding -1.08 is emitted in cycle 3 of a 3-cycle timeline. -/
theorem claim_C1_counterexample :
    ¬ (∀ c ∈ (generate_treatment_cycles "Prostate Cancer" 0 3 21 none rZero).1,
        ∀ p ∈ c.gene_expression, 0 ≤ p.2) := by
  intro hall
  have hinit : generate_initial_gene_expression "Prostate Cancer" 1 (fun _ => 0)
      = [("EGFR", (4:ℚ)), ("KRAS", 5), ("BRAF", 3), ("PIK3CA", 5)] := by
    simp [generate_initial_gene_expression, GENE_LIST, List.enum, List.enumFrom,
      geneRange, diseaseBases, DISEASE_GENE_BASE, lookupD, stageMultiplier,
      STAGE_MULTIPLIERS, uniform]
    norm_num [round2_id_4, round2_id_5, round2_id_3]
  have hu1 : update_gene_expression [("EGFR", (4:ℚ)), ("KRAS", 5), ("BRAF", 3), ("PIK3CA", 5)]
      "Prostate Cancer" 2 2 (fun _ => 0)
      = [("EGFR", (11/5:ℚ)), ("KRAS", 33/10), ("BRAF", 11/10), ("PIK3CA", 33/10)] := by
    simp [update_gene_expression, List.enum, List.enumFrom, uniform,
      stageMultiplier, STAGE_MULTIPLIERS, lookupD]
    norm_num [round2_id_11_5, round2_id_33_10, round2_id_11_10]
  have hu2 : update_gene_expression
        [("EGFR", (11/5:ℚ)), ("KRAS", 33/10), ("BRAF", 11/10), ("PIK3CA", 33/10)]
      "Prostate Cancer" 3 2 (fun _ => 0)
      = [("EGFR", (6/25:ℚ)), ("KRAS", 39/25), ("BRAF", -(27/25)), ("PIK3CA", 39/25)] := by
    simp [update_gene_expression, List.enum, List.enumFrom, uniform,
      stageMultiplier, STAGE_MULTIPLIERS, lookupD]
    norm_num [round2_id_6_25, round2_id_39_25, round2_id_neg_27_25]
  have hexpr : ((generate_treatment_cycles "Prostate Cancer" 0 3 21 none rZero).1.getD 2
      defaultCycle).gene_expression
      = [("EGFR", (6/25:ℚ)), ("KRAS", 39/25), ("BRAF", -(27/25)), ("PIK3CA", 39/25)] := by
    simp [generate_treatment_cycles, rZero, randint, genCyclesGo, dodReached, outcomeOf,
      generate_treatment_outcome, OUTCOMES, mkCycle, min_def, hinit, hu1, hu2]
  have hlen : 2 < (generate_treatment_cycles "Prostate Cancer" 0 3 21 none rZero).1.length := by
    simp [generate_treatment_cycles, rZero, genCyclesGo, dodReached, outcomeOf,
      generate_treatment_outcome, OUTCOMES]
  have hval := hall _ (mem_getD defaultCycle _ 2 hlen) ("BRAF", -(27/25)) (by rw [hexpr]; simp)
  norm_num at hval

/-- C1 amended: only the first emitted cycle's snapshot (the freshly
generated one) is guaranteed non-negative; later snapshots can go
negative through the drift-and-multiply update.  Stated for any run
whose unit draws lie in [0, 1], i.e. any run reachable with Python's
`random.random()`. -/
theorem claim_C1_theorem (disease : String) (start : ℤ) (num : ℕ) (gap : ℤ)
    (dod : Option ℤ) (r : GenRand)
    (hu : ∀ i, 0 ≤ r.initUnit i ∧ r.initUnit i ≤ 1) :
    ∀ p ∈ ((generate_treatment_cycles disease start num gap dod r).1.getD 0
        defaultCycle).gene_expression, 0 ≤ p.2 := by
  intro p hp
  rcases genCyclesGo_head_expr disease gap r dod num 0 start (randint 1 2 r.stageSeed)
      (generate_initial_gene_expression disease (randint 1 2 r.stageSeed) r.initUnit) with h | h
  · have hp2 : p ∈ generate_initial_gene_expression disease (randint 1 2 r.stageSeed)
        r.initUnit := by
      rw [show ((generate_treatment_cycles disease start num gap dod r).1.getD 0
        defaultCycle).gene_expression = generate_initial_gene_expression disease
        (randint 1 2 r.stageSeed) r.initUnit from h] at hp
      exact hp
    have hb := (initial_expr_bounds disease (randint 1 2 r.stageSeed) r.initUnit hu p hp2).1
    have hr := (geneRange_good disease p.1).1
    have hm := stageMultiplier_good (randint 1 2 r.stageSeed)
    nlinarith [hb, hr, hm]
  · rw [show (generate_treatment_cycles disease start num gap dod r).1 = [] from h] at hp
    simp [defaultCycle] at hp

/-- C1 witness: in a concrete run the first gene of the first cycle's
snapshot is non-negative. -/
theorem claim_C1_witness :
    0 ≤ (((generate_treatment_cycles "Breast Cancer" 0 2 21 none rZero).1.getD 0
        defaultCycle).gene_expression.getD 0 ("", 0)).2 :=
  claim_C1_theorem "Breast Cancer" 0 2 21 none rZero
    (fun i => by constructor <;> simp [rZero]) _
    (mem_getD ("", 0) _ 0 (by
      simp [generate_treatment_cycles, rZero, genCyclesGo, dodReached, outcomeOf,
        generate_treatment_outcome, OUTCOMES, mkCycle, generate_initial_gene_expression,
        GENE_LIST, List.enum, List.enumFrom]))

/-- C2 counterexample: the claimed equivalence fails when the final
allowed cycle draws a terminal outcome.  With max_cycles = 1 and the
single cycle's outcome "Death", the returned list still has length 1 =
max_cycles, yet an emitted cycle has a terminal outcome (and the
supplied death date 1000 is never reached). -/
theorem claim_C2_counterexample :
    ¬ ((generate_treatment_cycles "Breast Cancer" 0 1 21 (some 1000) rDeathAt0).1.length ≤ 1 ∧
      ((generate_treatment_cycles "Breast Cancer" 0 1 21 (some 1000) rDeathAt0).1.length = 1 ↔
        (∀ c ∈ (generate_treatment_cycles "Breast Cancer" 0 1 21 (some 1000) rDeathAt0).1,
            isTerminalOutcome c.treatment_outcome = false) ∧
        (∀ i : ℕ, i < 1 → (0:ℤ) + (i:ℤ) * 21 < 1000))) := by
  rintro ⟨-, hiff⟩
  have hlen : (generate_treatment_cycles "Breast Cancer" 0 1 21 (some 1000) rDeathAt0).1.length
      = 1 := by
    simp [generate_treatment_cycles, rDeathAt0, genCyclesGo, dodReached, outcomeOf,
      generate_treatment_outcome, OUTCOMES]
  obtain ⟨hA, -⟩ := hiff.mp hlen
  have hc := hA ((generate_treatment_cycles "Breast Cancer" 0 1 21 (some 1000) rDeathAt0).1.getD 0
    defaultCycle) (mem_getD defaultCycle _ 0 (by rw [hlen]; norm_num))
  simp [generate_treatment_cycles, rDeathAt0, genCyclesGo, dodReached, outcomeOf,
    generate_treatment_outcome, OUTCOMES, mkCycle, isTerminalOutcome] at hc

/-- C2 amended: `len(cycles) ≤ max_cycles` always, and the length equals
max_cycles iff no cycle other than possibly the final one draws a
terminal outcome ("Death" or "Discontinued") and no would-be cycle date
among the first max_cycles reaches the supplied death date. -/
theorem claim_C2_theorem (disease : String) (start : ℤ) (num : ℕ) (gap : ℤ)
    (dod : Option ℤ) (r : GenRand) (hnum : 1 ≤ num) :
    (generate_treatment_cycles disease start num gap dod r).1.length ≤ num ∧
    ((generate_treatment_cycles disease start num gap dod r).1.length = num ↔
      (∀ i, i + 1 < num → isTerminalOutcome (outcomeOf r i) = false) ∧
      (∀ i : ℕ, i < num → ∀ dd, dod = some dd → start + (i : ℤ) * gap < dd)) := by
  have h := genCyclesGo_len disease gap r dod num 0 start (randint 1 2 r.stageSeed)
    (generate_initial_gene_expression disease (randint 1 2 r.stageSeed) r.initUnit)
  simpa using h

/-- C2 witness: a 2-cycle request with no terminal draws and no death
date runs to completion. -/
theorem claim_C2_witness :
    (generate_treatment_cycles "Lung Cancer" 0 2 21 none rZero).1.length ≤ 2 ∧
    ((generate_treatment_cycles "Lung Cancer" 0 2 21 none rZero).1.length = 2 ↔
      (∀ i, i + 1 < 2 → isTerminalOutcome (outcomeOf rZero i) = false) ∧
      (∀ i : ℕ, i < 2 → ∀ dd, (none : Option ℤ) = some dd → (0:ℤ) + (i : ℤ) * 21 < dd)) :=
  claim_C2_theorem "Lung Cancer" 0 2 21 none rZero (by norm_num)

/-- C3: if any emitted cycle's outcome is "Death", that cycle is the
last one of the timeline and the returned death date is that cycle's
date plus cycle_gap_days. -/
theorem claim_C3_theorem (disease : String) (start : ℤ) (num : ℕ) (gap : ℤ)
    (dod : Option ℤ) (r : GenRand) (i : ℕ)
    (hi : i < (generate_treatment_cycles disease start num gap dod r).1.length)
    (hout : ((generate_treatment_cycles disease start num gap dod r).1.getD i
      defaultCycle).treatment_outcome = "Death") :
    i = (generate_treatment_cycles disease start num gap dod r).1.length - 1 ∧
    (generate_treatment_cycles disease start num gap dod r).2 =
      some (((generate_treatment_cycles disease start num gap dod r).1.getD i
        defaultCycle).cycle_date + gap) :=
  genCyclesGo_death disease gap r dod num 0 start (randint 1 2 r.stageSeed)
    (generate_initial_gene_expression disease (randint 1 2 r.stageSeed) r.initUnit) i hi hout

/-- C3 witness: a run whose first cycle draws "Death" ends there with
death date 0 + 21. -/
theorem claim_C3_witness :
    0 = (generate_treatment_cycles "Breast Cancer" 0 2 21 none rDeathAt0).1.length - 1 ∧
    (generate_treatment_cycles "Breast Cancer" 0 2 21 none rDeathAt0).2 =
      some (((generate_treatment_cycles "Breast Cancer" 0 2 21 none rDeathAt0).1.getD 0
        defaultCycle).cycle_date + 21) :=
  claim_C3_theorem "Breast Cancer" 0 2 21 none rDeathAt0 0
    (by simp [generate_treatment_cycles, rDeathAt0, genCyclesGo, dodReached, outcomeOf,
      generate_treatment_outcome, OUTCOMES])
    (by simp [generate_treatment_cycles, rDeathAt0, genCyclesGo, dodReached, outcomeOf,
      generate_treatment_outcome, OUTCOMES, mkCycle])

/-- C4: if any emitted cycle's outcome is "Discontinued", that cycle is
the last one of the timeline and the returned death date is exactly the
input death date (None when none was supplied). -/
theorem claim_C4_theorem (disease : String) (start : ℤ) (num : ℕ) (gap : ℤ)
    (dod : Option ℤ) (r : GenRand) (i : ℕ)
    (hi : i < (generate_treatment_cycles disease start num gap dod r).1.length)
    (hout : ((generate_treatment_cycles disease start num gap dod r).1.getD i
      defaultCycle).treatment_outcome = "Discontinued") :
    i = (generate_treatment_cycles disease start num gap dod r).1.length - 1 ∧
    (generate_treatment_cycles disease start num gap dod r).2 = dod :=
  genCyclesGo_disc disease gap r dod num 0 start (randint 1 2 r.stageSeed)
    (generate_initial_gene_expression disease (randint 1 2 r.stageSeed) r.initUnit) i hi hout

/-- C4 witness: a run whose first cycle draws "Discontinued" ends there
and returns the input death date None. -/
theorem claim_C4_witness :
    0 = (generate_treatment_cycles "Breast Cancer" 0 2 21 none rDiscAt0).1.length - 1 ∧
    (generate_treatment_cycles "Breast Cancer" 0 2 21 none rDiscAt0).2 = none :=
  claim_C4_theorem "Breast Cancer" 0 2 21 none rDiscAt0 0
    (by simp [generate_treatment_cycles, rDiscAt0, genCyclesGo, dodReached, outcomeOf,
      generate_treatment_outcome, OUTCOMES])
    (by simp [generate_treatment_cycles, rDiscAt0, genCyclesGo, dodReached, outcomeOf,
      generate_treatment_outcome, OUTCOMES, mkCycle])

/-- C5: the first cycle's disease stage is 1 or 2, each later cycle's
stage is the previous stage plus one capped at 4, and hence stages are
non-decreasing and never exceed 4. -/
theorem claim_C5_theorem (disease : String) (start : ℤ) (num : ℕ) (gap : ℤ)
    (dod : Option ℤ) (r : GenRand) :
    (0 < (generate_treatment_cycles disease start num gap dod r).1.length →
      ((generate_treatment_cycles disease start num gap dod r).1.getD 0
          defaultCycle).disease_stage = 1 ∨
      ((generate_treatment_cycles disease start num gap dod r).1.getD 0
          defaultCycle).disease_stage = 2) ∧
    (∀ i, i + 1 < (generate_treatment_cycles disease start num gap dod r).1.length →
      ((generate_treatment_cycles disease start num gap dod r).1.getD (i + 1)
          defaultCycle).disease_stage =
        min (((generate_treatment_cycles disease start num gap dod r).1.getD i
          defaultCycle).disease_stage + 1) 4) ∧
    (∀ i, i + 1 < (generate_treatment_cycles disease start num gap dod r).1.length →
      ((generate_treatment_cycles disease start num gap dod r).1.getD i
          defaultCycle).disease_stage ≤
        ((generate_treatment_cycles disease start num gap dod r).1.getD (i + 1)
          defaultCycle).disease_stage) ∧
    (∀ i, i < (generate_treatment_cycles disease start num gap dod r).1.length →
      ((generate_treatment_cycles disease start num gap dod r).1.getD i
          defaultCycle).disease_stage ≤ 4) := by
  have hs : randint 1 2 r.stageSeed = 1 ∨ randint 1 2 r.stageSeed = 2 := by
    unfold randint; omega
  have hs4 : randint 1 2 r.stageSeed ≤ 4 := by rcases hs with h | h <;> omega
  have hmap := genCyclesGo_map_stage disease gap r dod num 0 start (randint 1 2 r.stageSeed)
    (generate_initial_gene_expression disease (randint 1 2 r.stageSeed) r.initUnit)
  have key : ∀ i, i < (generate_treatment_cycles disease start num gap dod r).1.length →
      ((generate_treatment_cycles disease start num gap dod r).1.getD i
        defaultCycle).disease_stage = min (randint 1 2 r.stageSeed + i) 4 := by
    intro i hi
    have h1 := getD_map_lt (fun c => c.disease_stage)
      (generate_treatment_cycles disease start num gap dod r).1 i 0 defaultCycle hi
    rw [show (generate_treatment_cycles disease start num gap dod r).1.map
        (fun c => c.disease_stage) = stageList (randint 1 2 r.stageSeed)
        (generate_treatment_cycles disease start num gap dod r).1.length from hmap] at h1
    rw [stageList_getD _ i _ 0 hs4 hi] at h1
    exact h1.symm
  refine ⟨?_, ?_, ?_, ?_⟩
  · intro h0
    rcases hs with h | h <;> rw [key 0 h0, h] <;> omega
  · intro i hi
    rw [key (i + 1) hi, key i (by omega)]
    omega
  · intro i hi
    rw [key (i + 1) hi, key i (by omega)]
    omega
  · intro i hi
    rw [key i hi]
    omega

/-- C5 witness: in a concrete 2-cycle run the first cycle's stage is 1
or 2. -/
theorem claim_C5_witness :
    ((generate_treatment_cycles "Breast Cancer" 0 2 21 none rZero).1.getD 0
        defaultCycle).disease_stage = 1 ∨
    ((generate_treatment_cycles "Breast Cancer" 0 2 21 none rZero).1.getD 0
        defaultCycle).disease_stage = 2 :=
  ( claim_C5_theorem "Breast Cancer" 0 2 21 none rZero).1
    (by simp [generate_treatment_cycles, rZero, genCyclesGo, dodReached, outcomeOf,
      generate_treatment_outcome, OUTCOMES])

/-- C6: every gene's initial expression value lies within
[min_range * stage_multiplier, max_range * stage_multiplier] for its
disease and gene, up to the half-cent slack of rounding to 2 decimals,
for any stage and any unit draws in [0, 1]. -/
theorem claim_C6_theorem (disease : String) (stage : ℕ) (u : ℕ → ℚ)
    (hu : ∀ i, 0 ≤ u i ∧ u i ≤ 1) :
    ∀ p ∈ generate_initial_gene_expression disease stage u,
      (geneRange disease p.1).1 * stageMultiplier stage - 1/200 ≤ p.2 ∧
        p.2 ≤ (geneRange disease p.1).2 * stageMultiplier stage + 1/200 :=
  initial_expr_bounds disease stage u hu

/-- C6 witness: concrete disease, stage and mid-range draws, checked on
the first gene of the produced snapshot. -/
theorem claim_C6_witness :
    (geneRange "Lung Cancer"
          ((generate_initial_gene_expression "Lung Cancer" 2 (fun _ => 1/2)).getD 0
            ("", 0)).1).1 * stageMultiplier 2 - 1/200 ≤
        ((generate_initial_gene_expression "Lung Cancer" 2 (fun _ => 1/2)).getD 0 ("", 0)).2 ∧
      ((generate_initial_gene_expression "Lung Cancer" 2 (fun _ => 1/2)).getD 0 ("", 0)).2 ≤
        (geneRange "Lung Cancer"
          ((generate_initial_gene_expression "Lung Cancer" 2 (fun _ => 1/2)).getD 0
            ("", 0)).1).2 * stageMultiplier 2 + 1/200 :=
  claim_C6_theorem "Lung Cancer" 2 (fun _ => 1/2) (fun i => by constructor <;> norm_num) _
    (mem_getD ("", 0) _ 0 (by
      simp [generate_initial_gene_expression, GENE_LIST, List.enum, List.enumFrom]))

/-- C7: the cycle_number fields of the emitted cycles, in order, are
exactly 1, 2, ..., len(cycles). -/
theorem claim_C7_theorem (disease : String) (start : ℤ) (num : ℕ) (gap : ℤ)
    (dod : Option ℤ) (r : GenRand) :
    ((generate_treatment_cycles disease start num gap dod r).1.map fun c => c.cycle_number)
      = List.range' 1 (generate_treatment_cycles disease start num gap dod r).1.length := by
  have h := genCyclesGo_map_number disease gap r dod num 0 start (randint 1 2 r.stageSeed)
    (generate_initial_gene_expression disease (randint 1 2 r.stageSeed) r.initUnit)
  simpa using h

/-- C8: the first cycle's date is the supplied start date and each
subsequent cycle's date is the previous cycle's date plus
cycle_gap_days. -/
theorem claim_C8_theorem (disease : String) (start : ℤ) (num : ℕ) (gap : ℤ)
    (dod : Option ℤ) (r : GenRand) :
    (0 < (generate_treatment_cycles disease start num gap dod r).1.length →
      ((generate_treatment_cycles disease start num gap dod r).1.getD 0
        defaultCycle).cycle_date = start) ∧
    (∀ i, i + 1 < (generate_treatment_cycles disease start num gap dod r).1.length →
      ((generate_treatment_cycles disease start num gap dod r).1.getD (i + 1)
          defaultCycle).cycle_date =
        ((generate_treatment_cycles disease start num gap dod r).1.getD i
          defaultCycle).cycle_date + gap) := by
  have hmap := genCyclesGo_map_date disease gap r dod num 0 start (randint 1 2 r.stageSeed)
    (generate_initial_gene_expression disease (randint 1 2 r.stageSeed) r.initUnit)
  have key : ∀ i, i < (generate_treatment_cycles disease start num gap dod r).1.length →
      ((generate_treatment_cycles disease start num gap dod r).1.getD i
        defaultCycle).cycle_date = start + (i : ℤ) * gap := by
    intro i hi
    have h1 := getD_map_lt (fun c => c.cycle_date)
      (generate_treatment_cycles disease start num gap dod r).1 i 0 defaultCycle hi
    rw [show (generate_treatment_cycles disease start num gap dod r).1.map
        (fun c => c.cycle_date) = dateList gap start
        (generate_treatment_cycles disease start num gap dod r).1.length from hmap] at h1
    rw [dateList_getD gap _ i start 0 hi] at h1
    exact h1.symm
  constructor
  · intro h0
    rw [key 0 h0]
    simp
  · intro i hi
    rw [key (i + 1) hi, key i (by omega)]
    push_cast
    ring

/-- C8 witness: in a concrete run starting at day 7 the first cycle's
date is 7. -/
theorem claim_C8_witness :
    ((generate_treatment_cycles "Breast Cancer" 7 2 21 none rZero).1.getD 0
      defaultCycle).cycle_date = 7 :=
  ( claim_C8_theorem "Breast Cancer" 7 2 21 none rZero).1
    (by simp [generate_treatment_cycles, rZero, genCyclesGo, dodReached, outcomeOf,
      generate_treatment_outcome, OUTCOMES])

/-- C9: an unrecognized disease name does not fail; the initial snapshot
falls back to the "Breast Cancer" baselines, and the whole generator
behaves exactly as for "Breast Cancer", still returning a (cycles,
death date) pair. -/
theorem claim_C9_theorem (disease : String)
    (hd : ∀ q ∈ DISEASE_GENE_BASE, q.1 ≠ disease)
    (start : ℤ) (num : ℕ) (gap : ℤ) (dod : Option ℤ) (r : GenRand) :
    generate_initial_gene_expression disease (randint 1 2 r.stageSeed) r.initUnit
        = generate_initial_gene_expression "Breast Cancer" (randint 1 2 r.stageSeed) r.initUnit ∧
    generate_treatment_cycles disease start num gap dod r
        = generate_treatment_cycles "Breast Cancer" start num gap dod r := by
  constructor
  · exact initial_expr_unknown disease hd _ r.initUnit
  · simp only [generate_treatment_cycles]
    rw [initial_expr_unknown disease hd _ r.initUnit]
    exact genCyclesGo_disease disease "Breast Cancer" gap r dod num 0 start _ _

/-- C9 witness: the unknown disease string "Melanoma" (absent from the
baseline table) behaves exactly as "Breast Cancer". -/
theorem claim_C9_witness :
    generate_treatment_cycles "Melanoma" 0 2 21 none rZero
      = generate_treatment_cycles "Breast Cancer" 0 2 21 none rZero :=
  ( claim_C9_theorem "Melanoma" (by simp [DISEASE_GENE_BASE]) 0 2 21 none rZero).2

/-- C10: when a death date later than the start date is supplied and a
cycle draws "Death", the returned death date is that cycle's date plus
cycle_gap_days, replacing the supplied one. -/
theorem claim_C10_theorem (disease : String) (start : ℤ) (num : ℕ) (gap : ℤ)
    (d0 : ℤ) (r : GenRand) (hlt : start < d0) (i : ℕ)
    (hi : i < (generate_treatment_cycles disease start num gap (some d0) r).1.length)
    (hout : ((generate_treatment_cycles disease start num gap (some d0) r).1.getD i
      defaultCycle).treatment_outcome = "Death") :
    (generate_treatment_cycles disease start num gap (some d0) r).2 =
      some (((generate_treatment_cycles disease start num gap (some d0) r).1.getD i
        defaultCycle).cycle_date + gap) :=
  (genCyclesGo_death disease gap r (some d0) num 0 start (randint 1 2 r.stageSeed)
    (generate_initial_gene_expression disease (randint 1 2 r.stageSeed) r.initUnit) i hi hout).2

/-- C10 witness: death date 100 supplied, first cycle draws "Death";
the returned death date is the cycle's date plus 21. -/
theorem claim_C10_witness :
    (generate_treatment_cycles "Breast Cancer" 0 2 21 (some 100) rDeathAt0).2 =
      some (((generate_treatment_cycles "Breast Cancer" 0 2 21 (some 100) rDeathAt0).1.getD 0
        defaultCycle).cycle_date + 21) :=
  claim_C10_theorem "Breast Cancer" 0 2 21 100 rDeathAt0 (by norm_num) 0
    (by simp [generate_treatment_cycles, rDeathAt0, genCyclesGo, dodReached, outcomeOf,
      generate_treatment_outcome, OUTCOMES])
    (by simp [generate_treatment_cycles, rDeathAt0, genCyclesGo, dodReached, outcomeOf,
      generate_treatment_outcome, OUTCOMES, mkCycle])
